import Mathlib

/-
Verification of the configuration layer of `imsearch` (src/config.rs).

Shallow embedding conventions:
- Rust machine integers are modelled as `Nat` (u32, usize) and `Int` (i32);
  where the code performs an `as i32` cast from u32 the wrapping is explicit
  (`u32_as_i32`).
- Rust `f32` fields are modelled as `Rat`, with decimal default literals taken
  at their exact decimal value; none of the verified claims depends on binary
  floating-point rounding.
- A Rust computation that may abort the process (panic via `expect` /
  `unreachable!`, or a clap parse-error exit) is modelled with the `Outcome`
  type: `ok` carries the value, `panic` carries the abort message.
- External collaborators (the `directories` crate's `ProjectDirs` lookup) are
  modelled as inputs: `Env.projectConfigDir` is the platform config directory
  when resolution succeeds, `none` when it fails.
- The `once_cell::sync::Lazy` statics `OPTS` and `DB_PATH` are modelled by an
  explicit cell state `Globals` threaded through the forcing functions.
-/

deriving instance DecidableEq for Except

namespace Imsearch

/-- Outcome of a Rust computation that either returns a value or aborts the
process (panic / error exit) with a message. -/
inductive Outcome (α : Type) where
  | ok : α → Outcome α
  | panic : String → Outcome α
deriving DecidableEq

/-- Rust `Result::expect`: unwraps `Ok`, aborts the process with `msg` on
`Err` (discarding the error payload). -/
def expectR {ε α : Type} (r : Except ε α) (msg : String) : Outcome α :=
  match r with
  | .ok a => .ok a
  | .error _ => .panic msg

/-- Rust `Option::expect`: unwraps `Some`, aborts the process with `msg` on
`None`. -/
def expectO {α : Type} (r : Option α) (msg : String) : Outcome α :=
  match r with
  | some a => .ok a
  | none => .panic msg

/-- `enum OutputFormat { Json, Table }` from src/config.rs. -/
inductive OutputFormat where
  | json
  | table
deriving DecidableEq

/-- `impl FromStr for OutputFormat` from src/config.rs: `"json"` and
`"table"` map to `Ok`; every other string hits the `unreachable!()` arm,
which aborts the process.  The declared error type is `String`, so the
result is `Except String OutputFormat` inside `Outcome`. -/
def OutputFormat.fromStr (s : String) : Outcome (Except String OutputFormat) :=
  if s = "json" then .ok (.ok .json)
  else if s = "table" then .ok (.ok .table)
  else .panic "internal error: entered unreachable code"

/-- `struct ShowKeypoints` from src/config.rs. -/
structure ShowKeypoints where
  image : String
  output : Option String
deriving DecidableEq

/-- `struct ShowMatches` from src/config.rs. -/
structure ShowMatches where
  image1 : String
  image2 : String
  output : Option String
deriving DecidableEq

/-- `struct AddImages` from src/config.rs. -/
structure AddImages where
  path : String
  suffix : String
deriving DecidableEq

/-- `struct SearchImage` from src/config.rs. -/
structure SearchImage where
  image : String
deriving DecidableEq

/-- `enum SubCommand` from src/config.rs: exactly four variants. -/
inductive SubCommand where
  | showKeypoints : ShowKeypoints → SubCommand
  | showMatches : ShowMatches → SubCommand
  | addImages : AddImages → SubCommand
  | searchImage : SearchImage → SubCommand
deriving DecidableEq

/-- `struct Opts` from src/config.rs: the fifteen recognized options plus
the subcommand, field for field. -/
structure Opts where
  db_path : String
  orb_nfeatures : Nat
  orb_scale_factor : Rat
  orb_nlevels : Nat
  orb_ini_th_fast : Nat
  orb_min_th_fast : Nat
  flann_table_number : Int
  flann_key_size : Int
  flann_probe_level : Int
  flann_checks : Int
  flann_eps : Rat
  batch_size : Nat
  output_count : Nat
  output_format : OutputFormat
  knn_k : Int
  subcmd : SubCommand
deriving DecidableEq

/-- The option surface of `Opts`, in kebab-case as exposed on the command
line by the structopt derive. -/
def configOptionNames : List String :=
  ["db-path", "orb-nfeatures", "orb-scale-factor", "orb-nlevels",
   "orb-ini-th-fast", "orb-min-th-fast", "flann-table-number",
   "flann-key-size", "flann-probe-level", "flann-checks", "flann-eps",
   "batch-size", "output-count", "output-format", "knn-k"]

/-- The product of the fifteen option field types and the subcommand,
in declaration order of `Opts`. -/
abbrev Opts.Tuple : Type :=
  String × Nat × Rat × Nat × Nat × Nat × Int × Int × Int × Int × Rat ×
    Nat × Nat × OutputFormat × Int × SubCommand

/-- Project an `Opts` onto the tuple of its fields, in declaration order. -/
def Opts.toTuple (o : Opts) : Opts.Tuple :=
  (o.db_path, o.orb_nfeatures, o.orb_scale_factor, o.orb_nlevels,
   o.orb_ini_th_fast, o.orb_min_th_fast, o.flann_table_number,
   o.flann_key_size, o.flann_probe_level, o.flann_checks, o.flann_eps,
   o.batch_size, o.output_count, o.output_format, o.knn_k, o.subcmd)

/-- Rebuild an `Opts` from the tuple of its fields. -/
def Opts.ofTuple (t : Opts.Tuple) : Opts :=
  ⟨t.1, t.2.1, t.2.2.1, t.2.2.2.1, t.2.2.2.2.1, t.2.2.2.2.2.1,
   t.2.2.2.2.2.2.1, t.2.2.2.2.2.2.2.1, t.2.2.2.2.2.2.2.2.1,
   t.2.2.2.2.2.2.2.2.2.1, t.2.2.2.2.2.2.2.2.2.2.1,
   t.2.2.2.2.2.2.2.2.2.2.2.1, t.2.2.2.2.2.2.2.2.2.2.2.2.1,
   t.2.2.2.2.2.2.2.2.2.2.2.2.2.1, t.2.2.2.2.2.2.2.2.2.2.2.2.2.2.1,
   t.2.2.2.2.2.2.2.2.2.2.2.2.2.2.2⟩

/-- The sum of the four subcommand payload types. -/
abbrev SubCommand.Sum : Type :=
  ShowKeypoints ⊕ ShowMatches ⊕ AddImages ⊕ SearchImage

/-- View a `SubCommand` as an element of the four-way sum. -/
def SubCommand.toSum : SubCommand → SubCommand.Sum
  | .showKeypoints x => Sum.inl x
  | .showMatches x => Sum.inr (Sum.inl x)
  | .addImages x => Sum.inr (Sum.inr (Sum.inl x))
  | .searchImage x => Sum.inr (Sum.inr (Sum.inr x))

/-- Rebuild a `SubCommand` from the four-way sum. -/
def SubCommand.ofSum : SubCommand.Sum → SubCommand
  | Sum.inl x => .showKeypoints x
  | Sum.inr (Sum.inl x) => .showMatches x
  | Sum.inr (Sum.inr (Sum.inl x)) => .addImages x
  | Sum.inr (Sum.inr (Sum.inr x)) => .searchImage x

/-- Modelled from the spec: the driver layer's dispatch (the `main`
module is not under src/).  Per the spec the command set is dispatched
from a single match point; this is that total match, one handler per
variant. -/
def SubCommand.dispatch {α : Type} (h₁ : ShowKeypoints → α)
    (h₂ : ShowMatches → α) (h₃ : AddImages → α) (h₄ : SearchImage → α) :
    SubCommand → α
  | .showKeypoints x => h₁ x
  | .showMatches x => h₂ x
  | .addImages x => h₃ x
  | .searchImage x => h₄ x

/-- Construction of an `AddImages` request from its parsed arguments: the
`suffix` flag carries `default_value = "jpg,png"` (src/config.rs), applied
when the flag is absent. -/
def mkAddImages (path : String) (suffix : Option String) : AddImages :=
  ⟨path, suffix.getD "jpg,png"⟩

/-- The platform facts the configuration layer consumes: the config
directory of `ProjectDirs::from("", "aloxaf", "imsearch")`, or `none`
when the `directories` crate cannot resolve a home directory. -/
structure Env where
  projectConfigDir : Option String
deriving DecidableEq

/-- State of the process-wide `once_cell::sync::Lazy` statics `OPTS` and
`DB_PATH` of src/config.rs: `none` = not yet initialized. -/
structure Globals where
  optsCell : Option Opts
  dbPathCell : Option String
deriving DecidableEq

/-- The fresh global state at process start: no lazy static initialized. -/
def Globals.init : Globals := ⟨none, none⟩

/-- Forcing the `DB_PATH` lazy static: first access runs the closure —
`ProjectDirs::from("", "aloxaf", "imsearch").expect("failed to get project
dir")`, then `config_dir().join("imsearch.db")` — and caches the result;
later accesses return the cached string. -/
def forceDbPath (env : Env) (g : Globals) : Outcome (Globals × String) :=
  match g.dbPathCell with
  | some s => .ok (g, s)
  | none =>
    match expectO env.projectConfigDir "failed to get project dir" with
    | .panic m => .panic m
    | .ok d =>
      let s := d ++ "/imsearch.db"
      .ok ({ g with dbPathCell := some s }, s)

/-- The raw command line as typed by clap from the structopt attributes:
each option either absent (`none`) or present with a value of the field's
declared type.  clap's per-field `FromStr` already enforces the types
(e.g. a negative literal fails for the `u32` fields but is accepted for
the `i32` flann fields); no range validation exists in src/config.rs.
`output_format` is kept as the raw string because clap checks it against
`possible_values = ["table", "json"]` before `OutputFormat::from_str`
runs. -/
structure Flags where
  db_path : Option String
  orb_nfeatures : Option Nat
  orb_scale_factor : Option Rat
  orb_nlevels : Option Nat
  orb_ini_th_fast : Option Nat
  orb_min_th_fast : Option Nat
  flann_table_number : Option Int
  flann_key_size : Option Int
  flann_probe_level : Option Int
  flann_checks : Option Int
  flann_eps : Option Rat
  batch_size : Option Nat
  output_count : Option Nat
  output_format : Option String
  knn_k : Option Int
  subcmd : SubCommand
deriving DecidableEq

/-- A command line carrying no option flag, only the subcommand. -/
def Flags.onlySub (sc : SubCommand) : Flags :=
  ⟨none, none, none, none, none, none, none, none, none, none, none,
   none, none, none, none, sc⟩

/-- The `output_format` argument: clap first checks the raw string against
`possible_values = ["table", "json"]` (a parse error, reported by clap, when
it is neither), then `OutputFormat::from_str` runs; when the flag is absent
the `default_value = "table"` string goes through the same `from_str`. -/
def parseOutputFormatFlag : Option String → Outcome (Except String OutputFormat)
  | none => OutputFormat.fromStr "table"
  | some s =>
    if s = "table" ∨ s = "json" then OutputFormat.fromStr s
    else .ok (.error ("invalid value for output-format: " ++ s))

/-- Forcing the `OPTS` lazy static, i.e. `Lazy::new(Opts::from_args)`:
first access parses the command line and caches the result; later accesses
return the cached `Opts` whatever the environment or command line.
Building the clap app evaluates `default_value = &*DB_PATH`, so `DB_PATH`
is forced — and may abort the process — even when `--db-path` is supplied.
A clap parse error (bad `possible_values`) makes `from_args` exit the
process, modelled as a `panic` outcome.  Every default value is the
literal from src/config.rs. -/
def forceOpts (env : Env) (f : Flags) (g : Globals) :
    Outcome (Globals × Opts) :=
  match g.optsCell with
  | some o => .ok (g, o)
  | none =>
    match forceDbPath env g with
    | .panic m => .panic m
    | .ok (g₁, defaultDb) =>
      match parseOutputFormatFlag f.output_format with
      | .panic m => .panic m
      | .ok (.error e) => .panic ("error: " ++ e)
      | .ok (.ok fmt) =>
        let o : Opts :=
          { db_path := f.db_path.getD defaultDb
            orb_nfeatures := f.orb_nfeatures.getD 500
            orb_scale_factor := f.orb_scale_factor.getD 1.2
            orb_nlevels := f.orb_nlevels.getD 8
            orb_ini_th_fast := f.orb_ini_th_fast.getD 20
            orb_min_th_fast := f.orb_min_th_fast.getD 7
            flann_table_number := f.flann_table_number.getD 6
            flann_key_size := f.flann_key_size.getD 12
            flann_probe_level := f.flann_probe_level.getD 1
            flann_checks := f.flann_checks.getD 32
            flann_eps := f.flann_eps.getD 0
            batch_size := f.batch_size.getD 5000000
            output_count := f.output_count.getD 10
            output_format := fmt
            knn_k := f.knn_k.getD 3
            subcmd := f.subcmd }
        .ok ({ g₁ with optsCell := some o }, o)

/-- Rust `v as i32` on a `u32` value `v`: reinterpret the low 32 bits as
two's complement. -/
def u32_as_i32 (v : Nat) : Int :=
  if v % 2 ^ 32 < 2 ^ 31 then ((v % 2 ^ 32 : Nat) : Int)
  else ((v % 2 ^ 32 : Nat) : Int) - 2 ^ 32

/-- The extractor parameter record (nfeatures, scaleFactor, nlevels,
iniThFast, minThFast) as `Slam3ORB::create` receives them. -/
structure Slam3ORB where
  nfeatures : Int
  scaleFactor : Rat
  nlevels : Int
  iniThFast : Int
  minThFast : Int
deriving DecidableEq

/-- Modelled from the spec: `Slam3ORB::create` (module `slam3_orb` is not
under src/).  The spec bounds the extractor by "scale factor s > 1" and
nonnegative counts, and classifies "scale factor ≤ 1, negative counts" as
out-of-range; `create` returns an error on such parameters and the
parameter record otherwise. -/
def Slam3ORB.create (nfeatures : Int) (scaleFactor : Rat)
    (nlevels iniThFast minThFast : Int) : Except String Slam3ORB :=
  if scaleFactor ≤ 1 ∨ nfeatures < 0 ∨ nlevels < 0 ∨ iniThFast < 0 ∨
      minThFast < 0 then
    .error "invalid ORB parameters"
  else
    .ok ⟨nfeatures, scaleFactor, nlevels, iniThFast, minThFast⟩

/-- The argument tuple `impl From<&Opts> for Slam3ORB` passes to
`Slam3ORB::create`: each `u32` field cast with `as i32`
(src/config.rs lines 133-144). -/
def slam3ORBArgs (o : Opts) : Int × Rat × Int × Int × Int :=
  (u32_as_i32 o.orb_nfeatures, o.orb_scale_factor,
   u32_as_i32 o.orb_nlevels, u32_as_i32 o.orb_ini_th_fast,
   u32_as_i32 o.orb_min_th_fast)

/-- `impl From<&Opts> for Slam3ORB` (src/config.rs): forwards the cast
fields to `Slam3ORB::create` and unwraps with
`.expect("failed to build Slam3Orb")` — any creation failure aborts the
process. -/
def slam3ORB_from (o : Opts) : Outcome Slam3ORB :=
  expectR
    (Slam3ORB.create (slam3ORBArgs o).1 (slam3ORBArgs o).2.1
      (slam3ORBArgs o).2.2.1 (slam3ORBArgs o).2.2.2.1
      (slam3ORBArgs o).2.2.2.2)
    "failed to build Slam3Orb"

/-- The configuration produced by the option defaults of src/config.rs,
with the database path resolved under the platform config directory `cd`
and subcommand `sc`: one literal per `default_value` attribute. -/
def defaultOpts (cd : String) (sc : SubCommand) : Opts :=
  { db_path := cd ++ "/imsearch.db"
    orb_nfeatures := 500
    orb_scale_factor := 1.2
    orb_nlevels := 8
    orb_ini_th_fast := 20
    orb_min_th_fast := 7
    flann_table_number := 6
    flann_key_size := 12
    flann_probe_level := 1
    flann_checks := 32
    flann_eps := 0
    batch_size := 5000000
    output_count := 10
    output_format := OutputFormat.table
    knn_k := 3
    subcmd := sc }

/-- A command line overriding the scale-factor and flann-table-number
flags, everything else left to defaults. -/
def overriddenFlags (sc : SubCommand) (scale : Rat) (tn : Int) : Flags :=
  { Flags.onlySub sc with
    orb_scale_factor := some scale, flann_table_number := some tn }

/-- The configuration such a command line parses to under config
directory `cd`. -/
def overriddenOpts (cd : String) (sc : SubCommand) (scale : Rat)
    (tn : Int) : Opts :=
  { defaultOpts cd sc with
    orb_scale_factor := scale, flann_table_number := tn }

/-- An out-of-range command line: pyramid scale factor 0 (≤ 1) and a
negative flann-table-number, everything else left to defaults. -/
def badFlags : Flags :=
  overriddenFlags (SubCommand.searchImage ⟨"query.jpg"⟩) 0 (-5)

/-- The configuration the parser produces for `badFlags` under config
directory "/cfg". -/
def badOpts : Opts :=
  overriddenOpts "/cfg" (SubCommand.searchImage ⟨"query.jpg"⟩) 0 (-5)

/-- A command line that supplies `--db-path` explicitly (plus the
subcommand), so the db-path default is never needed. -/
def dbFlags : Flags :=
  { Flags.onlySub (SubCommand.searchImage ⟨"query.jpg"⟩) with
    db_path := some "/tmp/x.db" }

/-- The configuration the parser produces for `dbFlags` under config
directory "/cfg". -/
def dbOpts : Opts :=
  { defaultOpts "/cfg" (SubCommand.searchImage ⟨"query.jpg"⟩) with
    db_path := "/tmp/x.db" }

/-- C4: the recognized configuration surface is exactly the fifteen listed
options — `configOptionNames` lists fifteen distinct names, and an `Opts`
value is precisely a tuple of one field per listed option (in declaration
order) together with the subcommand: `toTuple`/`ofTuple` are mutually
inverse, so there are no further fields. -/
theorem opts_fields_exactly_fifteen_options :
    configOptionNames.length = 15 ∧ configOptionNames.Nodup ∧
    (∀ o : Opts, Opts.ofTuple (Opts.toTuple o) = o) ∧
    (∀ t : Opts.Tuple, Opts.toTuple (Opts.ofTuple t) = t) :=
  ⟨rfl, by decide, fun _ => rfl, fun _ => rfl⟩

/-- C5: the command set is a closed tagged union of exactly the four request
variants show-keypoints, show-matches, add-images, search-image —
`SubCommand` is in bijection with the four-way sum of the payload types —
and is consumed by a single total dispatch point, `SubCommand.dispatch`,
which routes each variant to its one handler. -/
theorem subCommand_closed_union_of_four :
    (∀ c : SubCommand, SubCommand.ofSum (SubCommand.toSum c) = c) ∧
    (∀ s : SubCommand.Sum, SubCommand.toSum (SubCommand.ofSum s) = s) ∧
    (∀ (α : Type) (h₁ : ShowKeypoints → α) (h₂ : ShowMatches → α)
        (h₃ : AddImages → α) (h₄ : SearchImage → α),
      (∀ x, SubCommand.dispatch h₁ h₂ h₃ h₄ (.showKeypoints x) = h₁ x) ∧
      (∀ x, SubCommand.dispatch h₁ h₂ h₃ h₄ (.showMatches x) = h₂ x) ∧
      (∀ x, SubCommand.dispatch h₁ h₂ h₃ h₄ (.addImages x) = h₃ x) ∧
      (∀ x, SubCommand.dispatch h₁ h₂ h₃ h₄ (.searchImage x) = h₄ x)) := by
  refine ⟨fun c => ?_, fun s => ?_, fun α h₁ h₂ h₃ h₄ =>
    ⟨fun _ => rfl, fun _ => rfl, fun _ => rfl, fun _ => rfl⟩⟩
  · cases c <;> rfl
  · rcases s with x | x | x | x <;> rfl

/-- C6: an add-images request built without a suffix flag gets the default
suffix list, exactly "jpg,png". -/
theorem addImages_suffix_defaults_jpg_png (p : String) :
    mkAddImages p none = ⟨p, "jpg,png"⟩ :=
  rfl

/-- C3 counterexample: on the string "xml" — neither "json" nor "table" —
`OutputFormat::from_str` aborts the process through `unreachable!()`
instead of returning a typed error. -/
theorem outputFormat_fromStr_xml_panics :
    OutputFormat.fromStr "xml" =
      Outcome.panic "internal error: entered unreachable code" := by
  decide

/-- C3 amended: parsing an output-format returns Ok(Json) exactly on
"json" and Ok(Table) exactly on "table"; on every other string it panics
(the `unreachable!()` arm) rather than returning a typed error. -/
theorem outputFormat_fromStr_cases (s : String) :
    (OutputFormat.fromStr s = Outcome.ok (Except.ok OutputFormat.json) ↔
      s = "json") ∧
    (OutputFormat.fromStr s = Outcome.ok (Except.ok OutputFormat.table) ↔
      s = "table") ∧
    (s ≠ "json" → s ≠ "table" →
      OutputFormat.fromStr s =
        Outcome.panic "internal error: entered unreachable code") := by
  unfold OutputFormat.fromStr
  by_cases h₁ : s = "json" <;> by_cases h₂ : s = "table" <;>
    simp [h₁, h₂]

/-- C3 amended, witness at the concrete input "xml". -/
theorem outputFormat_fromStr_cases_witness :
    OutputFormat.fromStr "xml" =
      Outcome.panic "internal error: entered unreachable code" :=
  (outputFormat_fromStr_cases "xml").2.2 (by decide) (by decide)

/-- C8: under the clap precondition that the raw string is one of the
declared possible_values "table" or "json", the `from_str` parse is total:
the `unreachable!()` arm is not reached and the parse succeeds. -/
theorem outputFormat_fromStr_total_on_possible_values (s : String)
    (h : s = "table" ∨ s = "json") :
    ∃ v : OutputFormat,
      OutputFormat.fromStr s = Outcome.ok (Except.ok v) := by
  rcases h with h | h <;> subst h
  · exact ⟨.table, by decide⟩
  · exact ⟨.json, by decide⟩

/-- C8 witness at the concrete input "table". -/
theorem outputFormat_fromStr_total_witness :
    ("table" = "table" ∨ "table" = "json") ∧
    ∃ v : OutputFormat,
      OutputFormat.fromStr "table" = Outcome.ok (Except.ok v) :=
  ⟨Or.inl rfl,
   outputFormat_fromStr_total_on_possible_values "table" (Or.inl rfl)⟩

/-- C9: with no option flags supplied, the parsed configuration takes
exactly the documented defaults (`defaultOpts`): nfeatures 500, scale 1.2,
nlevels 8, ini-th 20, min-th 7, table-number 6, key-size 12, probe-level 1,
checks 32, eps 0.0, batch 5000000, output-count 10, format table, knn-k 3,
and db-path = platform config directory joined with "imsearch.db". -/
theorem opts_defaults_when_no_flags (env : Env) (cd : String)
    (sc : SubCommand) (h : env.projectConfigDir = some cd) :
    forceOpts env (Flags.onlySub sc) Globals.init =
      Outcome.ok
        (⟨some (defaultOpts cd sc), some (cd ++ "/imsearch.db")⟩,
         defaultOpts cd sc) := by
  simp [forceOpts, forceDbPath, Globals.init, Flags.onlySub, expectO, h,
        parseOutputFormatFlag, OutputFormat.fromStr, defaultOpts]

/-- C9 witness at a concrete environment and subcommand. -/
theorem opts_defaults_when_no_flags_witness :
    (Env.mk (some "/cfg")).projectConfigDir = some "/cfg" ∧
    forceOpts ⟨some "/cfg"⟩
        (Flags.onlySub (SubCommand.searchImage ⟨"query.jpg"⟩))
        Globals.init =
      Outcome.ok
        (⟨some (defaultOpts "/cfg" (SubCommand.searchImage ⟨"query.jpg"⟩)),
          some ("/cfg" ++ "/imsearch.db")⟩,
         defaultOpts "/cfg" (SubCommand.searchImage ⟨"query.jpg"⟩)) :=
  ⟨rfl, opts_defaults_when_no_flags ⟨some "/cfg"⟩ "/cfg"
    (SubCommand.searchImage ⟨"query.jpg"⟩) rfl⟩

/-- C1 counterexample: a command line with scale factor 0 (≤ 1) and
flann-table-number −5 is accepted by startup parsing — no ConfigInvalid
error, the out-of-range values land in the configuration unchanged — and
building the feature extractor from it then aborts the process with a
panic instead of returning a typed error. -/
theorem out_of_range_config_accepted_then_panic :
    forceOpts ⟨some "/cfg"⟩ badFlags Globals.init =
      Outcome.ok (⟨some badOpts, some "/cfg/imsearch.db"⟩, badOpts) ∧
    slam3ORB_from badOpts = Outcome.panic "failed to build Slam3Orb" := by
  refine ⟨rfl, ?_⟩
  have h0 : badOpts.orb_scale_factor ≤ 1 := by
    simp [badOpts, overriddenOpts, defaultOpts]
  simp [slam3ORB_from, slam3ORBArgs, Slam3ORB.create, expectR, h0]

/-- C1 amended: out-of-range parameters are not rejected at startup —
parsing performs no range validation, so any scale factor and any (possibly
negative) flann-table-number are accepted into the configuration — and
constructing the feature extractor from a configuration whose scale factor
is ≤ 1 aborts the process with a panic ("failed to build Slam3Orb"),
not a typed ConfigInvalid error. -/
theorem out_of_range_not_rejected_at_startup (env : Env) (cd : String)
    (sc : SubCommand) (scale : Rat) (tn : Int)
    (h : env.projectConfigDir = some cd) :
    forceOpts env (overriddenFlags sc scale tn) Globals.init =
      Outcome.ok
        (⟨some (overriddenOpts cd sc scale tn),
          some (cd ++ "/imsearch.db")⟩,
         overriddenOpts cd sc scale tn) ∧
    (∀ o : Opts, o.orb_scale_factor ≤ 1 →
      slam3ORB_from o = Outcome.panic "failed to build Slam3Orb") := by
  constructor
  · simp [forceOpts, forceDbPath, Globals.init, Flags.onlySub, expectO, h,
          parseOutputFormatFlag, OutputFormat.fromStr, defaultOpts,
          overriddenFlags, overriddenOpts]
  · intro o ho
    simp [slam3ORB_from, slam3ORBArgs, Slam3ORB.create, expectR, ho]

/-- C1 amended, witness: concrete environment, scale 0,
flann-table-number −5, and the resulting configuration. -/
theorem out_of_range_not_rejected_at_startup_witness :
    forceOpts ⟨some "/cfg"⟩
        (overriddenFlags (SubCommand.searchImage ⟨"query.jpg"⟩) 0 (-5))
        Globals.init =
      Outcome.ok
        (⟨some (overriddenOpts "/cfg"
            (SubCommand.searchImage ⟨"query.jpg"⟩) 0 (-5)),
          some ("/cfg" ++ "/imsearch.db")⟩,
         overriddenOpts "/cfg" (SubCommand.searchImage ⟨"query.jpg"⟩)
           0 (-5)) ∧
    slam3ORB_from badOpts = Outcome.panic "failed to build Slam3Orb" :=
  ⟨(out_of_range_not_rejected_at_startup ⟨some "/cfg"⟩ "/cfg"
      (SubCommand.searchImage ⟨"query.jpg"⟩) 0 (-5) rfl).1,
   (out_of_range_not_rejected_at_startup ⟨some "/cfg"⟩ "/cfg"
      (SubCommand.searchImage ⟨"query.jpg"⟩) 0 (-5) rfl).2
     badOpts (by simp [badOpts, overriddenOpts, defaultOpts])⟩

/-- C2 counterexample: when the platform yields no project directory,
resolving the default db-path aborts the process with the `expect` panic
"failed to get project dir" instead of propagating a typed error. -/
theorem dbPath_resolution_failure_aborts :
    forceDbPath ⟨none⟩ Globals.init =
      Outcome.panic "failed to get project dir" :=
  rfl

/-- C2 amended: construction failures abort the process via `expect`
panics rather than returning typed errors — db-path resolution panics when
the platform directory is unavailable, and feature-extractor construction
panics on a rejected configuration. -/
theorem construction_failures_abort_not_typed (env : Env) (g : Globals)
    (h₁ : env.projectConfigDir = none) (h₂ : g.dbPathCell = none) :
    forceDbPath env g = Outcome.panic "failed to get project dir" ∧
    (∀ o : Opts, o.orb_scale_factor ≤ 1 →
      slam3ORB_from o = Outcome.panic "failed to build Slam3Orb") := by
  constructor
  · simp [forceDbPath, expectO, h₁, h₂]
  · intro o ho
    simp [slam3ORB_from, slam3ORBArgs, Slam3ORB.create, expectR, ho]

/-- C2 amended, witness: the empty environment and the configuration with
scale factor 1/2. -/
theorem construction_failures_abort_not_typed_witness :
    forceDbPath ⟨none⟩ Globals.init =
      Outcome.panic "failed to get project dir" ∧
    slam3ORB_from badOpts = Outcome.panic "failed to build Slam3Orb" :=
  ⟨(construction_failures_abort_not_typed ⟨none⟩ Globals.init rfl rfl).1,
   (construction_failures_abort_not_typed ⟨none⟩ Globals.init rfl rfl).2
     badOpts (by simp [badOpts, overriddenOpts, defaultOpts])⟩

/-- C7 counterexample: two runs with the identical command line — which
even supplies `--db-path` explicitly — behave differently depending on
process-global platform state: with no resolvable project directory the
configuration access aborts (the lazily forced `DB_PATH` global panics
although its value is not needed), while with one it succeeds. -/
theorem config_access_depends_on_global_state :
    forceOpts ⟨none⟩ dbFlags Globals.init =
      Outcome.panic "failed to get project dir" ∧
    forceOpts ⟨some "/cfg"⟩ dbFlags Globals.init =
      Outcome.ok (⟨some dbOpts, some "/cfg/imsearch.db"⟩, dbOpts) :=
  ⟨rfl, rfl⟩

/-- C7 amended: the configuration is not an explicit startup value but a
process-wide lazily-initialized singleton: the first successful access
caches the parsed `Opts` in the global cell, and every later access
returns the cached value unchanged, whatever the environment or command
line then say. -/
theorem opts_lazy_singleton_cached (env env' : Env) (f f' : Flags)
    (g g₂ : Globals) (o : Opts)
    (h : forceOpts env f g = Outcome.ok (g₂, o)) :
    forceOpts env' f' g₂ = Outcome.ok (g₂, o) := by
  have hcell : g₂.optsCell = some o := by
    unfold forceOpts at h
    split at h
    next o₀ heq =>
      simp only [Outcome.ok.injEq, Prod.mk.injEq] at h
      obtain ⟨rfl, rfl⟩ := h
      exact heq
    next heq =>
      split at h
      · cases h
      · split at h
        · cases h
        · cases h
        · simp only [Outcome.ok.injEq, Prod.mk.injEq] at h
          obtain ⟨rfl, rfl⟩ := h
          rfl
  unfold forceOpts
  rw [hcell]

/-- C7 amended, witness: after the configuration has been cached by a run
under "/cfg", a later access with a different command line and a broken
environment still returns the cached configuration. -/
theorem opts_lazy_singleton_cached_witness :
    forceOpts ⟨none⟩
        (Flags.onlySub (SubCommand.showKeypoints ⟨"a.png", none⟩))
        ⟨some dbOpts, some "/cfg/imsearch.db"⟩ =
      Outcome.ok (⟨some dbOpts, some "/cfg/imsearch.db"⟩, dbOpts) :=
  opts_lazy_singleton_cached ⟨some "/cfg"⟩ ⟨none⟩ dbFlags
    (Flags.onlySub (SubCommand.showKeypoints ⟨"a.png", none⟩))
    Globals.init ⟨some dbOpts, some "/cfg/imsearch.db"⟩ dbOpts rfl

/-- C10: the `u32` extractor options reach `Slam3ORB::create` through the
`as i32` cast `u32_as_i32`, which wraps modulo 2^32 — the cast value is
congruent to the configured value mod 2^32 — and every in-range `u32`
value above 2^31 − 1 becomes negative. -/
theorem u32_params_wrap_mod_2_pow_32 (o : Opts) (v : Nat)
    (hv : v < 2 ^ 32) (hbig : 2 ^ 31 - 1 < v) :
    slam3ORBArgs o = (u32_as_i32 o.orb_nfeatures, o.orb_scale_factor,
      u32_as_i32 o.orb_nlevels, u32_as_i32 o.orb_ini_th_fast,
      u32_as_i32 o.orb_min_th_fast) ∧
    u32_as_i32 v % 2 ^ 32 = (v : Int) % 2 ^ 32 ∧
    u32_as_i32 v < 0 := by
  have hne : ¬ v % 2 ^ 32 < 2 ^ 31 := by
    rw [Nat.mod_eq_of_lt hv]; omega
  refine ⟨rfl, ?_, ?_⟩ <;>
    simp only [u32_as_i32, if_neg hne, Nat.mod_eq_of_lt hv] <;>
    omega

/-- C10 witness at the configured value 2^31 = 2147483648, which the cast
turns into −2^31. -/
theorem u32_params_wrap_mod_2_pow_32_witness :
    2147483648 < 2 ^ 32 ∧ 2 ^ 31 - 1 < 2147483648 ∧
    (slam3ORBArgs badOpts =
        (u32_as_i32 badOpts.orb_nfeatures, badOpts.orb_scale_factor,
         u32_as_i32 badOpts.orb_nlevels, u32_as_i32 badOpts.orb_ini_th_fast,
         u32_as_i32 badOpts.orb_min_th_fast) ∧
      u32_as_i32 2147483648 % 2 ^ 32 = (2147483648 : Int) % 2 ^ 32 ∧
      u32_as_i32 2147483648 < 0) :=
  ⟨by decide, by decide,
   u32_params_wrap_mod_2_pow_32 badOpts 2147483648 (by decide) (by decide)⟩

end Imsearch
